import Mathlib

/-!
Shallow embedding of `moto/dynamodb/models/table_export.py` (class
`TableExport`) and the collaborator interfaces it consumes.  The
DynamoDB table store, the S3 object store, gzip compression and
partition resolution live outside the provided source tree, so they are
modelled from the spec; everything in the `TableExport` namespace is a
direct translation of the Python source.
-/

namespace Moto

/-- Modelled from the spec: a table item's `to_json()` call either
returns the item's canonical JSON string or raises an exception carrying
a message; an item is represented by that outcome (`Item.serialize() ->
bytes`, "serialization failure" possible). -/
structure Item where
  to_json : Except String String

/-- Modelled from the spec: the table store's view of one table — its
ARN, its point-in-time-recovery status string (the value the source
reads at
`continuous_backups["PointInTimeRecoveryDescription"]["PointInTimeRecoveryStatus"]`),
and its current item sequence (`Table.allItems()`). -/
structure Table where
  table_arn : String
  pitr_status : String
  items : List Item

/-- Modelled from the spec: the DynamoDB backend holds a name-keyed
table mapping (`dynamodb_backend.tables`); the association list keeps
the dict's iteration order. -/
structure DynamoBackend where
  tables : List (String × Table)

/-- One stored object of the object store: bucket, key, and value. -/
structure S3Object where
  bucket : String
  key : String
  value : String
deriving DecidableEq

/-- Modelled from the spec: the object store — the set of existing
buckets (`bucketExists`), the stored objects, and whether a `putObject`
call raises (`fails with StoreUnavailable on backend error`), carrying
the raised error's message. -/
structure S3Backend where
  buckets : List String
  objects : List S3Object
  put_error : Option String
deriving DecidableEq

/-- Modelled from the spec: `putObject(bucketName, key, bytes)` stores
one object. -/
def S3Backend.put_object (s3 : S3Backend) (bucket_name key_name value : String) :
    S3Backend :=
  { s3 with objects := s3.objects ++ [⟨bucket_name, key_name, value⟩] }

/-- Modelled from the spec: partition resolution is "treated as pure
functions producing opaque unique strings"; `get_partition` is not part
of the provided source. -/
def get_partition (_region_name : String) : String := "aws"

/-- Modelled from the spec: gzip compression of the serialized document;
`gzip_compress` is not part of the provided source, and the spec
requires only that the stored artifact's gzip-decompressed content is
the JSON document, i.e. that compression is an invertible byte coding.
It is modelled as an arbitrary invertible coding (reversal). -/
def gzip_compress (s : String) : String := String.mk s.data.reverse

/-- Modelled from the spec: the inverse of [gzip_compress]. -/
def gzip_decompress (s : String) : String := String.mk s.data.reverse

/-- Python `json.dumps` escaping of one character of a string (quote and
backslash escapes; control characters are not needed here). -/
def json_escape_char (c : Char) : String :=
  if c = '"' ∨ c = '\\' then String.mk ['\\', c] else String.mk [c]

/-- Python `json.dumps` of one string. -/
def json_quote (s : String) : String :=
  "\"" ++ String.join (s.data.map json_escape_char) ++ "\""

/-- Python `json.dumps` of a list of strings: a JSON array of the
strings, with the default `", "` separator. -/
def json_dumps (xs : List String) : String :=
  "[" ++ String.intercalate ", " (xs.map json_quote) ++ "]"

/-- The state of one export job: the fields `TableExport.__init__`
assigns. -/
structure TableExport where
  partition : String
  table_arn : String
  arn : String
  s3_bucket : String
  s3_pfx : String
  status : String
  export_format : String
  export_type : String
  account_id : String
  region_name : String
  failure_code : Option String
  failure_message : Option String
  table_name : String
  item_count : Nat
  processed_bytes : Nat
  error_count : Nat
deriving DecidableEq

namespace TableExport

/-- `TableExport.__init__`: builds the job record in state
`IN_PROGRESS`.  `uuid_nodash` stands for
`str(uuid4()).replace('-', '')`, the random ARN suffix. -/
def create (s3_bucket s3_pfx region_name account_id table_arn
    export_format export_type uuid_nodash : String) : TableExport :=
  let partition := get_partition region_name
  { partition := partition
    table_arn := table_arn
    arn := "arn:" ++ partition ++ ":dynamodb:" ++ region_name ++ ":" ++
      account_id ++ ":table/" ++ table_arn ++ "/import/" ++ uuid_nodash
    s3_bucket := s3_bucket
    s3_pfx := s3_pfx
    status := "IN_PROGRESS"
    export_format := export_format
    export_type := export_type
    account_id := account_id
    region_name := region_name
    failure_code := none
    failure_message := none
    table_name := ""
    item_count := 0
    processed_bytes := 0
    error_count := 0 }

/-- The `for key in dynamodb_backend.tables` resolution loop: each
matching key overwrites `self.table_name`, so the last match wins;
`init` is the value of `self.table_name` entering the loop. -/
def find_table_name (tables : List (String × Table)) (arn init : String) : String :=
  tables.foldl (fun acc kt => if kt.2.table_arn == arn then kt.1 else acc) init

/-- `dynamodb_backend.tables[name]`: dict lookup by key. -/
def getTable (ddb : DynamoBackend) (name : String) : Option Table :=
  (ddb.tables.find? (fun kt => kt.1 == name)).map (fun kt => kt.2)

/-- The `for item in table.all_items()` loop body of
`_backup_to_s3_file`: serializes items in order, accumulating
`processed_bytes`; the first raising item aborts the loop, yielding the
bytes accumulated before the exception and the error's message. -/
def serialize_loop : List Item → Except (Nat × String) (Nat × List String)
  | [] => Except.ok (0, [])
  | i :: rest =>
    match i.to_json with
    | Except.error msg => Except.error (0, msg)
    | Except.ok s =>
      match serialize_loop rest with
      | Except.error (pb, msg) => Except.error (s.length + pb, msg)
      | Except.ok (pb, backup) => Except.ok (s.length + pb, s :: backup)

/-- `TableExport._backup_to_s3_file`: serialize all items, set the
counters, compress the JSON array, put one object, and resolve the final
status from `error_count`.  An exception anywhere in the stage yields
`Except.error` with the job's partial state and the error message; the
object store is unchanged in that case. -/
def backup_to_s3_file (job : TableExport) (s3 : S3Backend) (table : Table)
    (export_uuid shard_uuid : String) :
    Except (TableExport × String) (TableExport × S3Backend) :=
  match serialize_loop table.items with
  | Except.error (pb, msg) =>
    Except.error ({ job with processed_bytes := job.processed_bytes + pb }, msg)
  | Except.ok (pb, backup) =>
    let job := { job with
      processed_bytes := job.processed_bytes + pb
      item_count := backup.length }
    let content := gzip_compress (json_dumps backup)
    match s3.put_error with
    | some msg => Except.error (job, msg)
    | none =>
      let s3 := s3.put_object job.s3_bucket
        ( job.s3_pfx ++ "/AWSDynamoDB/" ++ export_uuid ++ "/data/" ++
          shard_uuid ++ ".gz") content
      Except.ok
        ({ job with status := if job.error_count == 0 then "COMPLETED" else "FAILED" },
         s3)

/-- `TableExport.run`: the job's full execution against the two backends.
`export_uuid` and `shard_uuid` stand for the two `uuid4()` calls of the
upload key.  In the degenerate case where the resolved table name is not
a key of the dict (impossible for a well-formed dict), the Python
`KeyError` escapes `run` and kills the worker thread, leaving the fields
as written so far. -/
def run (job : TableExport) (ddb : DynamoBackend) (s3 : S3Backend)
    (export_uuid shard_uuid : String) : TableExport × S3Backend :=
  if !(s3.buckets.contains job.s3_bucket) then
    ({ job with status := "FAILED"
                failure_code := some "S3NoSuchBucket"
                failure_message := some "The specified bucket does not exist" }, s3)
  else
    let job := { job with table_name := find_table_name ddb.tables job.table_arn job.table_name }
    if job.table_name == "" then
      ({ job with status := "FAILED"
                  failure_code := some "DynamoDBTableNotFound"
                  failure_message := some "The specified table does not exist" }, s3)
    else
      match getTable ddb job.table_name with
      | none => (job, s3)
      | some table =>
        if table.pitr_status != "ENABLED" then
          ({ job with status := "FAILED"
                      failure_code := some "PointInTimeRecoveryUnavailable"
                      failure_message := some "Point in time recovery not enabled for table" }, s3)
        else
          match backup_to_s3_file job s3 table export_uuid shard_uuid with
          | Except.ok (job, s3) => (job, s3)
          | Except.error (job, msg) =>
            ({ job with status := "FAILED"
                        failure_code := some "UNKNOWN"
                        failure_message := some msg }, s3)

/-- The snapshot `TableExport.response` returns. -/
structure Response where
  ExportArn : String
  ExportStatus : String
  FailureCode : Option String
  FailureMessage : Option String
  ExportFormat : String
  ExportType : String
  ItemCount : Nat
  BilledSizeBytes : Nat
deriving DecidableEq

/-- `TableExport.response`. -/
def response (job : TableExport) : Response :=
  { ExportArn := job.arn
    ExportStatus := job.status
    FailureCode := job.failure_code
    FailureMessage := job.failure_message
    ExportFormat := job.export_format
    ExportType := job.export_type
    ItemCount := job.item_count
    BilledSizeBytes := job.processed_bytes }

/-- A job state is terminal when its status is `COMPLETED` or `FAILED`. -/
def terminal (job : TableExport) : Prop :=
  job.status = "COMPLETED" ∨ job.status = "FAILED"

instance (job : TableExport) : Decidable (terminal job) := by
  unfold terminal; infer_instance

/-- Straight-line view of the serialization loop: `some` of the JSON
strings of all items when no `to_json` call raises, `none` when one
does. -/
def serialize_all : List Item → Option (List String)
  | [] => some []
  | i :: rest =>
    match i.to_json with
    | Except.error _ => none
    | Except.ok s => (serialize_all rest).map (fun js => s :: js)

/-- The sequence of job states over the stage steps of one execution of
`run`: the state at start, the state after the table-name resolution
loop, the partial state after an aborted serialize-and-upload stage, and
the state after each stage's terminal writes.  The last element is the
state `run` leaves behind. -/
def run_trace (job : TableExport) (ddb : DynamoBackend) (s3 : S3Backend)
    (export_uuid shard_uuid : String) : List TableExport :=
  if !(s3.buckets.contains job.s3_bucket) then
    [job,
     { job with status := "FAILED"
                failure_code := some "S3NoSuchBucket"
                failure_message := some "The specified bucket does not exist" }]
  else
    let job1 := { job with table_name := find_table_name ddb.tables job.table_arn job.table_name }
    if job1.table_name == "" then
      [job, job1,
       { job1 with status := "FAILED"
                   failure_code := some "DynamoDBTableNotFound"
                   failure_message := some "The specified table does not exist" }]
    else
      match getTable ddb job1.table_name with
      | none => [job, job1]
      | some table =>
        if table.pitr_status != "ENABLED" then
          [job, job1,
           { job1 with status := "FAILED"
                       failure_code := some "PointInTimeRecoveryUnavailable"
                       failure_message := some "Point in time recovery not enabled for table" }]
        else
          match backup_to_s3_file job1 s3 table export_uuid shard_uuid with
          | Except.ok (j, _) => [job, job1, j]
          | Except.error (j, msg) =>
            [job, job1, j,
             { j with status := "FAILED"
                      failure_code := some "UNKNOWN"
                      failure_message := some msg }]

/-- Fixture: an item that serializes successfully (7 bytes). -/
def itemA : Item := ⟨Except.ok "serialA"⟩

/-- Fixture: an item that serializes successfully (9 bytes). -/
def itemB : Item := ⟨Except.ok "serialB22"⟩

/-- Fixture: an item whose serialization raises. -/
def itemBad : Item := ⟨Except.error "boom"⟩

/-- Fixture: an exportable table with two items. -/
def tableOk : Table := ⟨"t-arn", "ENABLED", [itemA, itemB]⟩

/-- Fixture: a table with a raising item between two good ones. -/
def tableBad : Table := ⟨"t-arn", "ENABLED", [itemA, itemBad, itemB]⟩

/-- Fixture: a table without point-in-time recovery. -/
def tableNoPitr : Table := ⟨"t-arn", "DISABLED", [itemA]⟩

/-- Fixture: a backend holding [tableOk]. -/
def ddbOk : DynamoBackend := ⟨[("tbl", tableOk)]⟩

/-- Fixture: a backend holding [tableBad]. -/
def ddbBad : DynamoBackend := ⟨[("tbl", tableBad)]⟩

/-- Fixture: a backend holding [tableNoPitr]. -/
def ddbNoPitr : DynamoBackend := ⟨[("tbl", tableNoPitr)]⟩

/-- Fixture: an object store where bucket `bkt` exists. -/
def s3Ok : S3Backend := ⟨["bkt"], [], none⟩

/-- Fixture: an object store with no buckets. -/
def s3NoBucket : S3Backend := ⟨[], [], none⟩

/-- Fixture: an object store whose put raises. -/
def s3PutErr : S3Backend := ⟨["bkt"], [], some "S3 down"⟩

/-- Fixture: a job state as created, except with a nonzero error count
(the state `_backup_to_s3_file` would see under a per-item fault
tolerance extension). -/
def jobErr3 : TableExport :=
  { create "bkt" "pre" "us-east-1" "acct" "t-arn" "DYNAMODB_JSON" "FULL_EXPORT" "uuid0"
    with error_count := 3 }

theorem serialize_all_length {items : List Item} {jsons : List String}
    (h : serialize_all items = some jsons) : jsons.length = items.length := by
  induction items generalizing jsons with
  | nil =>
    simp only [serialize_all, Option.some.injEq] at h
    subst h; rfl
  | cons i rest ih =>
    simp only [serialize_all] at h
    cases hj : i.to_json with
    | error msg => rw [hj] at h; exact absurd h (by simp)
    | ok s =>
      rw [hj] at h
      cases hr : serialize_all rest with
      | none => rw [hr] at h; exact absurd h (by simp)
      | some js =>
        rw [hr] at h
        simp only [Option.map_some', Option.some.injEq] at h
        subst h
        simp [ih hr]

theorem serialize_loop_of_all {items : List Item} {jsons : List String}
    (h : serialize_all items = some jsons) :
    serialize_loop items = Except.ok ((jsons.map String.length).sum, jsons) := by
  induction items generalizing jsons with
  | nil =>
    simp only [serialize_all, Option.some.injEq] at h
    subst h; rfl
  | cons i rest ih =>
    simp only [serialize_all] at h
    cases hj : i.to_json with
    | error msg => rw [hj] at h; exact absurd h (by simp)
    | ok s =>
      rw [hj] at h
      cases hr : serialize_all rest with
      | none => rw [hr] at h; exact absurd h (by simp)
      | some js =>
        rw [hr] at h
        simp only [Option.map_some', Option.some.injEq] at h
        subst h
        simp [serialize_loop, hj, ih hr]

theorem serialize_loop_err {pre : List Item} {jsons : List String}
    (bad : Item) (rest : List Item) {msg : String}
    (h : serialize_all pre = some jsons) (hb : bad.to_json = Except.error msg) :
    serialize_loop (pre ++ bad :: rest) =
      Except.error ((jsons.map String.length).sum, msg) := by
  induction pre generalizing jsons with
  | nil =>
    simp only [serialize_all, Option.some.injEq] at h
    subst h
    simp [serialize_loop, hb]
  | cons i pr ih =>
    simp only [serialize_all] at h
    cases hj : i.to_json with
    | error m => rw [hj] at h; exact absurd h (by simp)
    | ok s =>
      rw [hj] at h
      cases hr : serialize_all pr with
      | none => rw [hr] at h; exact absurd h (by simp)
      | some js =>
        rw [hr] at h
        simp only [Option.map_some', Option.some.injEq] at h
        subst h
        simp [serialize_loop, hj, ih hr]

theorem find_table_name_of_nomatch {tables : List (String × Table)}
    {arn : String} (init : String)
    (h : ∀ kt ∈ tables, kt.2.table_arn ≠ arn) :
    find_table_name tables arn init = init := by
  induction tables generalizing init with
  | nil => rfl
  | cons kt ts ih =>
    simp only [find_table_name, List.foldl_cons]
    rw [if_neg (by simpa using h kt (by simp))]
    exact ih init (fun x hx => h x (by simp [hx]))

theorem run_no_bucket {job : TableExport} {ddb : DynamoBackend} {s3 : S3Backend}
    {eu su : String} (h : s3.buckets.contains job.s3_bucket = false) :
    run job ddb s3 eu su =
      ({ job with status := "FAILED"
                  failure_code := some "S3NoSuchBucket"
                  failure_message := some "The specified bucket does not exist" }, s3) := by
  have h' : job.s3_bucket ∉ s3.buckets := by simpa using h
  simp [run, h']

theorem run_no_table {job : TableExport} {ddb : DynamoBackend} {s3 : S3Backend}
    {eu su : String} (hb : s3.buckets.contains job.s3_bucket = true)
    (hn : find_table_name ddb.tables job.table_arn job.table_name = "") :
    run job ddb s3 eu su =
      ({ job with table_name := ""
                  status := "FAILED"
                  failure_code := some "DynamoDBTableNotFound"
                  failure_message := some "The specified table does not exist" }, s3) := by
  have hb' : job.s3_bucket ∈ s3.buckets := by simpa using hb
  simp [run, hb', hn]

theorem run_no_pitr {job : TableExport} {ddb : DynamoBackend} {s3 : S3Backend}
    {eu su name : String} {table : Table}
    (hb : s3.buckets.contains job.s3_bucket = true)
    (hn : find_table_name ddb.tables job.table_arn job.table_name = name)
    (hne : name ≠ "")
    (hg : getTable ddb name = some table)
    (hp : table.pitr_status ≠ "ENABLED") :
    run job ddb s3 eu su =
      ({ job with table_name := name
                  status := "FAILED"
                  failure_code := some "PointInTimeRecoveryUnavailable"
                  failure_message := some "Point in time recovery not enabled for table" }, s3) := by
  have hb' : job.s3_bucket ∈ s3.buckets := by simpa using hb
  simp [run, hb', hn, hne, hg, hp]

theorem run_backup_stage {job : TableExport} {ddb : DynamoBackend} {s3 : S3Backend}
    {eu su name : String} {table : Table}
    (hb : s3.buckets.contains job.s3_bucket = true)
    (hn : find_table_name ddb.tables job.table_arn job.table_name = name)
    (hne : name ≠ "")
    (hg : getTable ddb name = some table)
    (hp : table.pitr_status = "ENABLED") :
    run job ddb s3 eu su =
      match backup_to_s3_file { job with table_name := name } s3 table eu su with
      | Except.ok (j, s3') => (j, s3')
      | Except.error (j, msg) =>
        ({ j with status := "FAILED"
                  failure_code := some "UNKNOWN"
                  failure_message := some msg }, s3) := by
  have hb' : job.s3_bucket ∈ s3.buckets := by simpa using hb
  simp [run, hb', hn, hne, hg, hp]

theorem backup_ok {job : TableExport} {s3 : S3Backend} {table : Table}
    {eu su : String} {jsons : List String}
    (hser : serialize_all table.items = some jsons)
    (hput : s3.put_error = none) :
    backup_to_s3_file job s3 table eu su =
      Except.ok
        ({ job with
            processed_bytes := job.processed_bytes + (jsons.map String.length).sum
            item_count := jsons.length
            status := if job.error_count == 0 then "COMPLETED" else "FAILED" },
         s3.put_object job.s3_bucket
           ( job.s3_pfx ++ "/AWSDynamoDB/" ++ eu ++ "/data/" ++ su ++ ".gz")
           (gzip_compress (json_dumps jsons))) := by
  simp [backup_to_s3_file, serialize_loop_of_all hser, hput]

theorem backup_put_err {job : TableExport} {s3 : S3Backend} {table : Table}
    {eu su msg : String} {jsons : List String}
    (hser : serialize_all table.items = some jsons)
    (hput : s3.put_error = some msg) :
    backup_to_s3_file job s3 table eu su =
      Except.error
        ({ job with
            processed_bytes := job.processed_bytes + (jsons.map String.length).sum
            item_count := jsons.length }, msg) := by
  simp [backup_to_s3_file, serialize_loop_of_all hser, hput]

theorem backup_ser_err {job : TableExport} {s3 : S3Backend} {table : Table}
    {eu su msg : String} {pre rest : List Item} {bad : Item} {jsons : List String}
    (hitems : table.items = pre ++ bad :: rest)
    (hser : serialize_all pre = some jsons)
    (hbad : bad.to_json = Except.error msg) :
    backup_to_s3_file job s3 table eu su =
      Except.error
        ({ job with
            processed_bytes := job.processed_bytes + (jsons.map String.length).sum },
         msg) := by
  simp [backup_to_s3_file, hitems, serialize_loop_err bad rest hser hbad]

theorem trace_no_bucket {job : TableExport} {ddb : DynamoBackend} {s3 : S3Backend}
    {eu su : String} (h : s3.buckets.contains job.s3_bucket = false) :
    run_trace job ddb s3 eu su =
      [job,
       { job with status := "FAILED"
                  failure_code := some "S3NoSuchBucket"
                  failure_message := some "The specified bucket does not exist" }] := by
  have h' : job.s3_bucket ∉ s3.buckets := by simpa using h
  simp [run_trace, h']

theorem trace_no_table {job : TableExport} {ddb : DynamoBackend} {s3 : S3Backend}
    {eu su : String} (hb : s3.buckets.contains job.s3_bucket = true)
    (hn : find_table_name ddb.tables job.table_arn job.table_name = "") :
    run_trace job ddb s3 eu su =
      [job, { job with table_name := "" },
       { job with table_name := ""
                  status := "FAILED"
                  failure_code := some "DynamoDBTableNotFound"
                  failure_message := some "The specified table does not exist" }] := by
  have hb' : job.s3_bucket ∈ s3.buckets := by simpa using hb
  simp [run_trace, hb', hn]

theorem trace_no_pitr {job : TableExport} {ddb : DynamoBackend} {s3 : S3Backend}
    {eu su name : String} {table : Table}
    (hb : s3.buckets.contains job.s3_bucket = true)
    (hn : find_table_name ddb.tables job.table_arn job.table_name = name)
    (hne : name ≠ "")
    (hg : getTable ddb name = some table)
    (hp : table.pitr_status ≠ "ENABLED") :
    run_trace job ddb s3 eu su =
      [job, { job with table_name := name },
       { job with table_name := name
                  status := "FAILED"
                  failure_code := some "PointInTimeRecoveryUnavailable"
                  failure_message := some "Point in time recovery not enabled for table" }] := by
  have hb' : job.s3_bucket ∈ s3.buckets := by simpa using hb
  simp [run_trace, hb', hn, hne, hg, hp]

theorem trace_backup_stage {job : TableExport} {ddb : DynamoBackend} {s3 : S3Backend}
    {eu su name : String} {table : Table}
    (hb : s3.buckets.contains job.s3_bucket = true)
    (hn : find_table_name ddb.tables job.table_arn job.table_name = name)
    (hne : name ≠ "")
    (hg : getTable ddb name = some table)
    (hp : table.pitr_status = "ENABLED") :
    run_trace job ddb s3 eu su =
      match backup_to_s3_file { job with table_name := name } s3 table eu su with
      | Except.ok (j, _) => [job, { job with table_name := name }, j]
      | Except.error (j, msg) =>
        [job, { job with table_name := name }, j,
         { j with status := "FAILED"
                  failure_code := some "UNKNOWN"
                  failure_message := some msg }] := by
  have hb' : job.s3_bucket ∈ s3.buckets := by simpa using hb
  simp [run_trace, hb', hn, hne, hg, hp]

theorem run_keyerror {job : TableExport} {ddb : DynamoBackend} {s3 : S3Backend}
    {eu su name : String}
    (hb : s3.buckets.contains job.s3_bucket = true)
    (hn : find_table_name ddb.tables job.table_arn job.table_name = name)
    (hne : name ≠ "")
    (hg : getTable ddb name = none) :
    run job ddb s3 eu su = ({ job with table_name := name }, s3) := by
  have hb' : job.s3_bucket ∈ s3.buckets := by simpa using hb
  simp [run, hb', hn, hne, hg]

theorem trace_keyerror {job : TableExport} {ddb : DynamoBackend} {s3 : S3Backend}
    {eu su name : String}
    (hb : s3.buckets.contains job.s3_bucket = true)
    (hn : find_table_name ddb.tables job.table_arn job.table_name = name)
    (hne : name ≠ "")
    (hg : getTable ddb name = none) :
    run_trace job ddb s3 eu su = [job, { job with table_name := name }] := by
  have hb' : job.s3_bucket ∈ s3.buckets := by simpa using hb
  simp [run_trace, hb', hn, hne, hg]

theorem backup_ok_fields {job : TableExport} {s3 s3' : S3Backend} {table : Table}
    {eu su : String} {j : TableExport}
    (h : backup_to_s3_file job s3 table eu su = Except.ok (j, s3')) :
    j.status = (if job.error_count == 0 then "COMPLETED" else "FAILED") ∧
    j.failure_code = job.failure_code ∧
    j.failure_message = job.failure_message := by
  unfold backup_to_s3_file at h
  cases hsl : serialize_loop table.items with
  | error e =>
    rcases e with ⟨pb, msg⟩
    rw [hsl] at h
    exact absurd h (by simp)
  | ok v =>
    rcases v with ⟨pb, backup⟩
    rw [hsl] at h
    cases hpe : s3.put_error with
    | some msg => rw [hpe] at h; exact absurd h (by simp)
    | none =>
      rw [hpe] at h
      simp only [Except.ok.injEq, Prod.mk.injEq] at h
      obtain ⟨h1, -⟩ := h
      subst h1
      simp

theorem backup_err_fields {job : TableExport} {s3 : S3Backend} {table : Table}
    {eu su msg : String} {j : TableExport}
    (h : backup_to_s3_file job s3 table eu su = Except.error (j, msg)) :
    j.status = job.status ∧ j.failure_code = job.failure_code ∧
    j.failure_message = job.failure_message := by
  unfold backup_to_s3_file at h
  cases hsl : serialize_loop table.items with
  | error e =>
    rcases e with ⟨pb, m⟩
    rw [hsl] at h
    simp only [Except.error.injEq, Prod.mk.injEq] at h
    obtain ⟨h1, -⟩ := h
    subst h1
    simp
  | ok v =>
    rcases v with ⟨pb, backup⟩
    rw [hsl] at h
    cases hpe : s3.put_error with
    | some m =>
      rw [hpe] at h
      simp only [Except.error.injEq, Prod.mk.injEq] at h
      obtain ⟨h1, -⟩ := h
      subst h1
      simp
    | none => rw [hpe] at h; exact absurd h (by simp)

theorem trace_get_of_only_last {tr : List TableExport}
    (h : ∀ i : Fin tr.length, (i : ℕ) + 1 < tr.length → ¬ terminal (tr.get i))
    (i j : Fin tr.length) (hij : (i : ℕ) ≤ (j : ℕ)) (ht : terminal (tr.get i)) :
    tr.get j = tr.get i := by
  have hi : ¬ ((i : ℕ) + 1 < tr.length) := fun hc => h i hc ht
  have hj := j.isLt
  have : (i : ℕ) = (j : ℕ) := by omega
  congr 1
  exact (Fin.ext this).symm

theorem trace_shape {job : TableExport} {ddb : DynamoBackend} {s3 : S3Backend}
    {eu su : String} (hst : job.status = "IN_PROGRESS") :
    (run_trace job ddb s3 eu su).head? = some job ∧
    (run_trace job ddb s3 eu su).getLast? = some (run job ddb s3 eu su).1 ∧
    ∀ i : Fin (run_trace job ddb s3 eu su).length,
      (i : ℕ) + 1 < (run_trace job ddb s3 eu su).length →
      ¬ terminal ((run_trace job ddb s3 eu su).get i) := by
  have hnt : ¬ terminal job := by simp [terminal, hst]
  cases hb : s3.buckets.contains job.s3_bucket with
  | false =>
    rw [trace_no_bucket hb, run_no_bucket hb]
    refine ⟨rfl, rfl, ?_⟩
    intro i hlt
    fin_cases i
    · simpa using hnt
    · simp at hlt
  | true =>
    by_cases hne : find_table_name ddb.tables job.table_arn job.table_name = ""
    · rw [trace_no_table hb hne, run_no_table hb hne]
      refine ⟨rfl, rfl, ?_⟩
      intro i hlt
      fin_cases i
      · simpa using hnt
      · simp [terminal, hst]
      · simp at hlt
    · cases hg : getTable ddb (find_table_name ddb.tables job.table_arn job.table_name) with
      | none =>
        rw [trace_keyerror hb rfl hne hg, run_keyerror hb rfl hne hg]
        refine ⟨rfl, rfl, ?_⟩
        intro i hlt
        fin_cases i
        · simpa using hnt
        · simp at hlt
      | some table =>
        by_cases hp : table.pitr_status = "ENABLED"
        · rw [trace_backup_stage hb rfl hne hg hp, run_backup_stage hb rfl hne hg hp]
          cases hbk : backup_to_s3_file
              { job with table_name := find_table_name ddb.tables job.table_arn job.table_name }
              s3 table eu su with
          | ok v =>
            rcases v with ⟨j, s3'⟩
            refine ⟨rfl, rfl, ?_⟩
            intro i hlt
            fin_cases i
            · simpa using hnt
            · simp [terminal, hst]
            · simp at hlt
          | error e =>
            rcases e with ⟨j, msg⟩
            obtain ⟨hjs, -, -⟩ := backup_err_fields hbk
            refine ⟨rfl, rfl, ?_⟩
            intro i hlt
            fin_cases i
            · simpa using hnt
            · simp [terminal, hst]
            · simp [terminal, hjs, hst]
            · simp at hlt
        · rw [trace_no_pitr hb rfl hne hg hp, run_no_pitr hb rfl hne hg hp]
          refine ⟨rfl, rfl, ?_⟩
          intro i hlt
          fin_cases i
          · simpa using hnt
          · simp [terminal, hst]
          · simp at hlt

theorem trace_failure_fields {job : TableExport} {ddb : DynamoBackend}
    {s3 : S3Backend} {eu su : String}
    (hst : job.status = "IN_PROGRESS")
    (hfc : job.failure_code = none) (hfm : job.failure_message = none) :
    ∀ st ∈ run_trace job ddb s3 eu su,
      ((st.status = "IN_PROGRESS" ∨ st.status = "COMPLETED") →
        st.failure_code = none ∧ st.failure_message = none) ∧
      ((st.failure_code ≠ none ∨ st.failure_message ≠ none) →
        st.status = "FAILED") := by
  cases hb : s3.buckets.contains job.s3_bucket with
  | false =>
    rw [trace_no_bucket hb]
    intro st hmem
    rcases List.mem_pair.mp hmem with h | h <;> subst h <;> simp [hfc, hfm]
  | true =>
    by_cases hne : find_table_name ddb.tables job.table_arn job.table_name = ""
    · rw [trace_no_table hb hne]
      intro st hmem
      simp only [List.mem_cons, List.mem_singleton, List.not_mem_nil, or_false] at hmem
      rcases hmem with h | h | h <;> subst h <;> simp [hfc, hfm]
    · cases hg : getTable ddb (find_table_name ddb.tables job.table_arn job.table_name) with
      | none =>
        rw [trace_keyerror hb rfl hne hg]
        intro st hmem
        rcases List.mem_pair.mp hmem with h | h <;> subst h <;> simp [hfc, hfm]
      | some table =>
        by_cases hp : table.pitr_status = "ENABLED"
        · rw [trace_backup_stage hb rfl hne hg hp]
          cases hbk : backup_to_s3_file
              { job with table_name := find_table_name ddb.tables job.table_arn job.table_name }
              s3 table eu su with
          | ok v =>
            rcases v with ⟨j, s3'⟩
            obtain ⟨hjs, hjc, hjm⟩ := backup_ok_fields hbk
            intro st hmem
            simp only [List.mem_cons, List.mem_singleton, List.not_mem_nil, or_false] at hmem
            rcases hmem with h | h | h <;> subst h
            · simp [hfc, hfm]
            · simp [hfc, hfm]
            · simp only [hjc, hjm]
              simp [hfc, hfm]
          | error e =>
            rcases e with ⟨j, msg⟩
            obtain ⟨hjs, hjc, hjm⟩ := backup_err_fields hbk
            intro st hmem
            simp only [List.mem_cons, List.mem_singleton, List.not_mem_nil, or_false] at hmem
            rcases hmem with h | h | h | h <;> subst h
            · simp [hfc, hfm]
            · simp [hfc, hfm]
            · simp only [hjc, hjm]
              simp [hfc, hfm]
            · simp
        · rw [trace_no_pitr hb rfl hne hg hp]
          intro st hmem
          simp only [List.mem_cons, List.mem_singleton, List.not_mem_nil, or_false] at hmem
          rcases hmem with h | h | h <;> subst h <;> simp [hfc, hfm]

theorem gzip_roundtrip (s : String) : gzip_decompress (gzip_compress s) = s := by
  cases s with
  | mk l => simp [gzip_compress, gzip_decompress]

/-- C1: for every job whose destination bucket exists, whose table ARN
resolves to a table, whose table has point-in-time recovery enabled,
whose serialization and upload raise no exception, and whose error count
is 0 (how a freshly created job starts), the final status is `COMPLETED`,
`item_count` equals the number of items enumerated from the table,
`processed_bytes` equals the sum of the serialized sizes of those items,
and exactly one object is written to the object store at the key
`<prefix>/AWSDynamoDB/<uuid>/data/<uuid>.gz`, whose gzip-decompressed
content is the JSON array of the serialized items. -/
theorem c1_successful_export
    (b p r a arn fmt ty u eu su name : String)
    (ddb : DynamoBackend) (s3 : S3Backend) (table : Table) (jsons : List String)
    (hb : s3.buckets.contains b = true)
    (hn : find_table_name ddb.tables arn "" = name)
    (hne : name ≠ "")
    (hg : getTable ddb name = some table)
    (hp : table.pitr_status = "ENABLED")
    (hser : serialize_all table.items = some jsons)
    (hput : s3.put_error = none) :
    (run (create b p r a arn fmt ty u) ddb s3 eu su).1.status = "COMPLETED" ∧
    (run (create b p r a arn fmt ty u) ddb s3 eu su).1.item_count = table.items.length ∧
    (run (create b p r a arn fmt ty u) ddb s3 eu su).1.processed_bytes =
      (jsons.map String.length).sum ∧
    (run (create b p r a arn fmt ty u) ddb s3 eu su).2.objects =
      s3.objects ++
        [⟨b, p ++ "/AWSDynamoDB/" ++ eu ++ "/data/" ++ su ++ ".gz",
          gzip_compress (json_dumps jsons)⟩] ∧
    gzip_decompress (gzip_compress (json_dumps jsons)) = json_dumps jsons := by
  have hb' : s3.buckets.contains (create b p r a arn fmt ty u).s3_bucket = true := hb
  have hn' : find_table_name ddb.tables (create b p r a arn fmt ty u).table_arn
      (create b p r a arn fmt ty u).table_name = name := hn
  rw [run_backup_stage hb' hn' hne hg hp, backup_ok hser hput]
  refine ⟨?_, ?_, ?_, ?_, gzip_roundtrip _⟩ <;>
    simp [create, S3Backend.put_object, serialize_all_length hser]

/-- C2: for every job whose destination bucket does not exist, execution
ends `FAILED` with failure code `S3NoSuchBucket` and message "The
specified bucket does not exist", `item_count` is 0, the table name was
never resolved, and the object store is untouched (no object written,
later stages skipped). -/
theorem c2_missing_bucket
    (b p r a arn fmt ty u eu su : String) (ddb : DynamoBackend) (s3 : S3Backend)
    (hb : s3.buckets.contains b = false) :
    (run (create b p r a arn fmt ty u) ddb s3 eu su).1.status = "FAILED" ∧
    (run (create b p r a arn fmt ty u) ddb s3 eu su).1.failure_code =
      some "S3NoSuchBucket" ∧
    (run (create b p r a arn fmt ty u) ddb s3 eu su).1.failure_message =
      some "The specified bucket does not exist" ∧
    (run (create b p r a arn fmt ty u) ddb s3 eu su).1.item_count = 0 ∧
    (run (create b p r a arn fmt ty u) ddb s3 eu su).1.table_name = "" ∧
    (run (create b p r a arn fmt ty u) ddb s3 eu su).2 = s3 := by
  have hb' : s3.buckets.contains (create b p r a arn fmt ty u).s3_bucket = false := hb
  rw [run_no_bucket hb']
  simp [create]

/-- C3: for every job whose destination bucket exists but whose table ARN
matches no table in the table store, execution ends `FAILED` with failure
code `DynamoDBTableNotFound` and message "The specified table does not
exist", and the object store is untouched (later stages skipped). -/
theorem c3_table_not_found
    (b p r a arn fmt ty u eu su : String) (ddb : DynamoBackend) (s3 : S3Backend)
    (hb : s3.buckets.contains b = true)
    (hnomatch : ∀ kt ∈ ddb.tables, kt.2.table_arn ≠ arn) :
    (run (create b p r a arn fmt ty u) ddb s3 eu su).1.status = "FAILED" ∧
    (run (create b p r a arn fmt ty u) ddb s3 eu su).1.failure_code =
      some "DynamoDBTableNotFound" ∧
    (run (create b p r a arn fmt ty u) ddb s3 eu su).1.failure_message =
      some "The specified table does not exist" ∧
    (run (create b p r a arn fmt ty u) ddb s3 eu su).1.item_count = 0 ∧
    (run (create b p r a arn fmt ty u) ddb s3 eu su).2 = s3 := by
  have hb' : s3.buckets.contains (create b p r a arn fmt ty u).s3_bucket = true := hb
  have hn' : find_table_name ddb.tables (create b p r a arn fmt ty u).table_arn
      (create b p r a arn fmt ty u).table_name = "" :=
    find_table_name_of_nomatch _ hnomatch
  rw [run_no_table hb' hn']
  simp [create]

/-- C4: for every job whose destination bucket exists and whose table ARN
resolves, if the resolved table's point-in-time-recovery status is not
`ENABLED`, execution ends `FAILED` with failure code
`PointInTimeRecoveryUnavailable` and message "Point in time recovery not
enabled for table", and the object store is untouched (the
serialize-and-upload stage is skipped). -/
theorem c4_pitr_disabled
    (b p r a arn fmt ty u eu su name : String)
    (ddb : DynamoBackend) (s3 : S3Backend) (table : Table)
    (hb : s3.buckets.contains b = true)
    (hn : find_table_name ddb.tables arn "" = name)
    (hne : name ≠ "")
    (hg : getTable ddb name = some table)
    (hp : table.pitr_status ≠ "ENABLED") :
    (run (create b p r a arn fmt ty u) ddb s3 eu su).1.status = "FAILED" ∧
    (run (create b p r a arn fmt ty u) ddb s3 eu su).1.failure_code =
      some "PointInTimeRecoveryUnavailable" ∧
    (run (create b p r a arn fmt ty u) ddb s3 eu su).1.failure_message =
      some "Point in time recovery not enabled for table" ∧
    (run (create b p r a arn fmt ty u) ddb s3 eu su).1.item_count = 0 ∧
    (run (create b p r a arn fmt ty u) ddb s3 eu su).2 = s3 := by
  have hb' : s3.buckets.contains (create b p r a arn fmt ty u).s3_bucket = true := hb
  have hn' : find_table_name ddb.tables (create b p r a arn fmt ty u).table_arn
      (create b p r a arn fmt ty u).table_name = name := hn
  rw [run_no_pitr hb' hn' hne hg hp]
  simp [create]

/-- C5: for every job that passes the bucket, table-resolution and PITR
checks, if the serialize-and-upload stage raises an exception anywhere
(item enumeration, per-item serialization, compression, or the object
store put), it is caught and execution ends `FAILED` with failure code
`UNKNOWN` and failure message equal to the raised error's message. -/
theorem c5_backup_exception_caught
    (b p r a arn fmt ty u eu su name msg : String)
    (ddb : DynamoBackend) (s3 : S3Backend) (table : Table) (j : TableExport)
    (hb : s3.buckets.contains b = true)
    (hn : find_table_name ddb.tables arn "" = name)
    (hne : name ≠ "")
    (hg : getTable ddb name = some table)
    (hp : table.pitr_status = "ENABLED")
    (hbk : backup_to_s3_file { create b p r a arn fmt ty u with table_name := name }
      s3 table eu su = Except.error (j, msg)) :
    (run (create b p r a arn fmt ty u) ddb s3 eu su).1.status = "FAILED" ∧
    (run (create b p r a arn fmt ty u) ddb s3 eu su).1.failure_code = some "UNKNOWN" ∧
    (run (create b p r a arn fmt ty u) ddb s3 eu su).1.failure_message = some msg ∧
    (run (create b p r a arn fmt ty u) ddb s3 eu su).2 = s3 := by
  have hb' : s3.buckets.contains (create b p r a arn fmt ty u).s3_bucket = true := hb
  have hn' : find_table_name ddb.tables (create b p r a arn fmt ty u).table_arn
      (create b p r a arn fmt ty u).table_name = name := hn
  rw [run_backup_stage hb' hn' hne hg hp, hbk]
  simp

/-- C6: for every job and at every point of its lifecycle (every state of
the execution's step trace, the freshly created state included), whenever
the status is `IN_PROGRESS` or `COMPLETED` both `failure_code` and
`failure_message` are null, and whenever either is non-null the status is
`FAILED`: the failure fields are assigned only in the same step in which
the status is set to `FAILED`. -/
theorem c6_failure_fields_null_unless_failed
    (b p r a arn fmt ty u eu su : String) (ddb : DynamoBackend) (s3 : S3Backend) :
    ∀ st ∈ run_trace (create b p r a arn fmt ty u) ddb s3 eu su,
      ((st.status = "IN_PROGRESS" ∨ st.status = "COMPLETED") →
        st.failure_code = none ∧ st.failure_message = none) ∧
      ((st.failure_code ≠ none ∨ st.failure_message ≠ none) →
        st.status = "FAILED") :=
  trace_failure_fields (by simp [create]) (by simp [create]) (by simp [create])

/-- C7: for every job, over the execution's step trace the status starts
at `IN_PROGRESS`, the trace ends in the state `run` leaves behind, and
once any trace state is terminal (`COMPLETED` or `FAILED`) every later
trace state is identical to it — so the terminal value is assigned at
most once, no field is written after it, and `response` returns identical
values at and after completion. -/
theorem c7_status_monotonic
    (b p r a arn fmt ty u eu su : String) (ddb : DynamoBackend) (s3 : S3Backend) :
    (create b p r a arn fmt ty u).status = "IN_PROGRESS" ∧
    (run_trace (create b p r a arn fmt ty u) ddb s3 eu su).head? =
      some (create b p r a arn fmt ty u) ∧
    (run_trace (create b p r a arn fmt ty u) ddb s3 eu su).getLast? =
      some (run (create b p r a arn fmt ty u) ddb s3 eu su).1 ∧
    ∀ i j : Fin (run_trace (create b p r a arn fmt ty u) ddb s3 eu su).length,
      (i : ℕ) ≤ (j : ℕ) →
      terminal ((run_trace (create b p r a arn fmt ty u) ddb s3 eu su).get i) →
      (run_trace (create b p r a arn fmt ty u) ddb s3 eu su).get j =
        (run_trace (create b p r a arn fmt ty u) ddb s3 eu su).get i ∧
      response ((run_trace (create b p r a arn fmt ty u) ddb s3 eu su).get j) =
        response ((run_trace (create b p r a arn fmt ty u) ddb s3 eu su).get i) := by
  obtain ⟨h1, h2, h3⟩ := @trace_shape (create b p r a arn fmt ty u) ddb s3 eu su
    (by simp [create])
  refine ⟨by simp [create], h1, h2, ?_⟩
  intro i j hij ht
  have hget := trace_get_of_only_last h3 i j hij ht
  exact ⟨hget, by rw [hget]⟩

/-- C8: for every job that fails, the counters reflect only work
completed before the failure: on any early-stage failure (bucket check,
table resolution, PITR check) both `item_count` and `processed_bytes`
remain 0; on a stage-4 failure during per-item serialization
`processed_bytes` is the sum of the sizes of the items serialized before
the exception while `item_count` stays 0; and on a stage-4 failure at the
upload `processed_bytes` is the full sum and `item_count` counts all
serialized items. -/
theorem c8_partial_progress_counters
    (b p r a arn fmt ty u eu su name msg : String)
    (ddb : DynamoBackend) (s3 : S3Backend) (table : Table)
    (pre rest : List Item) (bad : Item) (jsons jsons2 : List String) :
    ((s3.buckets.contains b = false) →
      (run (create b p r a arn fmt ty u) ddb s3 eu su).1.item_count = 0 ∧
      (run (create b p r a arn fmt ty u) ddb s3 eu su).1.processed_bytes = 0) ∧
    ((s3.buckets.contains b = true) →
      find_table_name ddb.tables arn "" = "" →
      (run (create b p r a arn fmt ty u) ddb s3 eu su).1.item_count = 0 ∧
      (run (create b p r a arn fmt ty u) ddb s3 eu su).1.processed_bytes = 0) ∧
    ((s3.buckets.contains b = true) →
      find_table_name ddb.tables arn "" = name → name ≠ "" →
      getTable ddb name = some table → table.pitr_status ≠ "ENABLED" →
      (run (create b p r a arn fmt ty u) ddb s3 eu su).1.item_count = 0 ∧
      (run (create b p r a arn fmt ty u) ddb s3 eu su).1.processed_bytes = 0) ∧
    ((s3.buckets.contains b = true) →
      find_table_name ddb.tables arn "" = name → name ≠ "" →
      getTable ddb name = some table → table.pitr_status = "ENABLED" →
      table.items = pre ++ bad :: rest →
      serialize_all pre = some jsons →
      bad.to_json = Except.error msg →
      (run (create b p r a arn fmt ty u) ddb s3 eu su).1.status = "FAILED" ∧
      (run (create b p r a arn fmt ty u) ddb s3 eu su).1.item_count = 0 ∧
      (run (create b p r a arn fmt ty u) ddb s3 eu su).1.processed_bytes =
        (jsons.map String.length).sum) ∧
    ((s3.buckets.contains b = true) →
      find_table_name ddb.tables arn "" = name → name ≠ "" →
      getTable ddb name = some table → table.pitr_status = "ENABLED" →
      serialize_all table.items = some jsons2 →
      s3.put_error = some msg →
      (run (create b p r a arn fmt ty u) ddb s3 eu su).1.status = "FAILED" ∧
      (run (create b p r a arn fmt ty u) ddb s3 eu su).1.item_count =
        table.items.length ∧
      (run (create b p r a arn fmt ty u) ddb s3 eu su).1.processed_bytes =
        (jsons2.map String.length).sum) := by
  refine ⟨?_, ?_, ?_, ?_, ?_⟩
  · intro hb
    have hb' : s3.buckets.contains (create b p r a arn fmt ty u).s3_bucket = false := hb
    rw [run_no_bucket hb']
    simp [create]
  · intro hb hn
    have hb' : s3.buckets.contains (create b p r a arn fmt ty u).s3_bucket = true := hb
    have hn' : find_table_name ddb.tables (create b p r a arn fmt ty u).table_arn
        (create b p r a arn fmt ty u).table_name = "" := hn
    rw [run_no_table hb' hn']
    simp [create]
  · intro hb hn hne hg hp
    have hb' : s3.buckets.contains (create b p r a arn fmt ty u).s3_bucket = true := hb
    have hn' : find_table_name ddb.tables (create b p r a arn fmt ty u).table_arn
        (create b p r a arn fmt ty u).table_name = name := hn
    rw [run_no_pitr hb' hn' hne hg hp]
    simp [create]
  · intro hb hn hne hg hp hitems hser hbad
    have hb' : s3.buckets.contains (create b p r a arn fmt ty u).s3_bucket = true := hb
    have hn' : find_table_name ddb.tables (create b p r a arn fmt ty u).table_arn
        (create b p r a arn fmt ty u).table_name = name := hn
    rw [run_backup_stage hb' hn' hne hg hp, backup_ser_err hitems hser hbad]
    simp [create]
  · intro hb hn hne hg hp hser hput
    have hb' : s3.buckets.contains (create b p r a arn fmt ty u).s3_bucket = true := hb
    have hn' : find_table_name ddb.tables (create b p r a arn fmt ty u).table_arn
        (create b p r a arn fmt ty u).table_name = name := hn
    rw [run_backup_stage hb' hn' hne hg hp, backup_put_err hser hput]
    simp [create, serialize_all_length hser]

/-- C9: for every job whose serialize-and-upload stage succeeds (one
object is written to the store), the final status is `COMPLETED` when
`error_count` is 0 and `FAILED` when `error_count` is nonzero, even
though the object was successfully written. -/
theorem c9_error_count_decides_final_status
    (job : TableExport) (ddb : DynamoBackend) (s3 : S3Backend)
    (eu su name : String) (table : Table) (jsons : List String)
    (hb : s3.buckets.contains job.s3_bucket = true)
    (hn : find_table_name ddb.tables job.table_arn job.table_name = name)
    (hne : name ≠ "")
    (hg : getTable ddb name = some table)
    (hp : table.pitr_status = "ENABLED")
    (hser : serialize_all table.items = some jsons)
    (hput : s3.put_error = none) :
    (run job ddb s3 eu su).2.objects.length = s3.objects.length + 1 ∧
    (job.error_count = 0 → (run job ddb s3 eu su).1.status = "COMPLETED") ∧
    (job.error_count ≠ 0 → (run job ddb s3 eu su).1.status = "FAILED") := by
  rw [run_backup_stage hb hn hne hg hp, backup_ok hser hput]
  refine ⟨by simp [S3Backend.put_object], ?_, ?_⟩
  · intro he; simp [he]
  · intro he; simp [he]

/-- C10 (implicit): in a run where the upload succeeds but `error_count`
is nonzero, the status is set to `FAILED` while `failure_code` and
`failure_message` stay null, so `response` reports a `FAILED` export with
both `FailureCode` and `FailureMessage` absent — unlike the four named
failure exits, this failure carries no code or message. -/
theorem c10_nonzero_error_count_failure_without_code
    (job : TableExport) (ddb : DynamoBackend) (s3 : S3Backend)
    (eu su name : String) (table : Table) (jsons : List String)
    (hb : s3.buckets.contains job.s3_bucket = true)
    (hn : find_table_name ddb.tables job.table_arn job.table_name = name)
    (hne : name ≠ "")
    (hg : getTable ddb name = some table)
    (hp : table.pitr_status = "ENABLED")
    (hser : serialize_all table.items = some jsons)
    (hput : s3.put_error = none)
    (hfc : job.failure_code = none) (hfm : job.failure_message = none)
    (he : job.error_count ≠ 0) :
    (run job ddb s3 eu su).1.status = "FAILED" ∧
    (run job ddb s3 eu su).1.failure_code = none ∧
    (run job ddb s3 eu su).1.failure_message = none ∧
    (response (run job ddb s3 eu su).1).ExportStatus = "FAILED" ∧
    (response (run job ddb s3 eu su).1).FailureCode = none ∧
    (response (run job ddb s3 eu su).1).FailureMessage = none ∧
    (run job ddb s3 eu su).2.objects.length = s3.objects.length + 1 := by
  rw [run_backup_stage hb hn hne hg hp, backup_ok hser hput]
  simp [response, S3Backend.put_object, hfc, hfm, he]

theorem c1_successful_export_witness :
    (run (create "bkt" "pre" "us-east-1" "acct" "t-arn" "DYNAMODB_JSON" "FULL_EXPORT" "uuid0")
      ddbOk s3Ok "eu" "su").1.status = "COMPLETED" ∧
    (run (create "bkt" "pre" "us-east-1" "acct" "t-arn" "DYNAMODB_JSON" "FULL_EXPORT" "uuid0")
      ddbOk s3Ok "eu" "su").1.item_count = tableOk.items.length ∧
    (run (create "bkt" "pre" "us-east-1" "acct" "t-arn" "DYNAMODB_JSON" "FULL_EXPORT" "uuid0")
      ddbOk s3Ok "eu" "su").1.processed_bytes =
      (["serialA", "serialB22"].map String.length).sum :=
  have h := c1_successful_export "bkt" "pre" "us-east-1" "acct" "t-arn" "DYNAMODB_JSON"
    "FULL_EXPORT" "uuid0" "eu" "su" "tbl" ddbOk s3Ok tableOk ["serialA", "serialB22"]
    rfl rfl (by decide) rfl rfl rfl rfl
  ⟨h.1, h.2.1, h.2.2.1⟩

theorem c2_missing_bucket_witness :
    (run (create "bkt" "pre" "us-east-1" "acct" "t-arn" "DYNAMODB_JSON" "FULL_EXPORT" "uuid0")
      ddbOk s3NoBucket "eu" "su").1.status = "FAILED" ∧
    (run (create "bkt" "pre" "us-east-1" "acct" "t-arn" "DYNAMODB_JSON" "FULL_EXPORT" "uuid0")
      ddbOk s3NoBucket "eu" "su").1.failure_code = some "S3NoSuchBucket" :=
  have h := c2_missing_bucket "bkt" "pre" "us-east-1" "acct" "t-arn" "DYNAMODB_JSON"
    "FULL_EXPORT" "uuid0" "eu" "su" ddbOk s3NoBucket rfl
  ⟨h.1, h.2.1⟩

theorem c3_table_not_found_witness :
    (run (create "bkt" "pre" "us-east-1" "acct" "other-arn" "DYNAMODB_JSON" "FULL_EXPORT" "uuid0")
      ddbOk s3Ok "eu" "su").1.status = "FAILED" ∧
    (run (create "bkt" "pre" "us-east-1" "acct" "other-arn" "DYNAMODB_JSON" "FULL_EXPORT" "uuid0")
      ddbOk s3Ok "eu" "su").1.failure_code = some "DynamoDBTableNotFound" :=
  have h := c3_table_not_found "bkt" "pre" "us-east-1" "acct" "other-arn" "DYNAMODB_JSON"
    "FULL_EXPORT" "uuid0" "eu" "su" ddbOk s3Ok rfl (by decide)
  ⟨h.1, h.2.1⟩

theorem c4_pitr_disabled_witness :
    (run (create "bkt" "pre" "us-east-1" "acct" "t-arn" "DYNAMODB_JSON" "FULL_EXPORT" "uuid0")
      ddbNoPitr s3Ok "eu" "su").1.status = "FAILED" ∧
    (run (create "bkt" "pre" "us-east-1" "acct" "t-arn" "DYNAMODB_JSON" "FULL_EXPORT" "uuid0")
      ddbNoPitr s3Ok "eu" "su").1.failure_code = some "PointInTimeRecoveryUnavailable" :=
  have h := c4_pitr_disabled "bkt" "pre" "us-east-1" "acct" "t-arn" "DYNAMODB_JSON"
    "FULL_EXPORT" "uuid0" "eu" "su" "tbl" ddbNoPitr s3Ok tableNoPitr
    rfl rfl (by decide) rfl (by decide)
  ⟨h.1, h.2.1⟩

theorem c5_backup_exception_caught_witness :
    (run (create "bkt" "pre" "us-east-1" "acct" "t-arn" "DYNAMODB_JSON" "FULL_EXPORT" "uuid0")
      ddbBad s3Ok "eu" "su").1.failure_code = some "UNKNOWN" ∧
    (run (create "bkt" "pre" "us-east-1" "acct" "t-arn" "DYNAMODB_JSON" "FULL_EXPORT" "uuid0")
      ddbBad s3Ok "eu" "su").1.failure_message = some "boom" :=
  have h := c5_backup_exception_caught "bkt" "pre" "us-east-1" "acct" "t-arn" "DYNAMODB_JSON"
    "FULL_EXPORT" "uuid0" "eu" "su" "tbl" "boom" ddbBad s3Ok tableBad
    ({ create "bkt" "pre" "us-east-1" "acct" "t-arn" "DYNAMODB_JSON" "FULL_EXPORT" "uuid0"
       with table_name := "tbl", processed_bytes := 7 })
    rfl rfl (by decide) rfl rfl rfl
  ⟨h.2.1, h.2.2.1⟩

theorem c6_failure_fields_null_unless_failed_witness :
    (run (create "bkt" "pre" "us-east-1" "acct" "t-arn" "DYNAMODB_JSON" "FULL_EXPORT" "uuid0")
      ddbOk s3Ok "eu" "su").1.failure_code = none ∧
    (run (create "bkt" "pre" "us-east-1" "acct" "t-arn" "DYNAMODB_JSON" "FULL_EXPORT" "uuid0")
      ddbOk s3Ok "eu" "su").1.failure_message = none :=
  (c6_failure_fields_null_unless_failed "bkt" "pre" "us-east-1" "acct" "t-arn" "DYNAMODB_JSON"
    "FULL_EXPORT" "uuid0" "eu" "su" ddbOk s3Ok
    (run (create "bkt" "pre" "us-east-1" "acct" "t-arn" "DYNAMODB_JSON" "FULL_EXPORT" "uuid0")
      ddbOk s3Ok "eu" "su").1
    (by decide)).1 (by decide)

theorem c7_status_monotonic_witness :
    (run_trace (create "bkt" "pre" "us-east-1" "acct" "t-arn" "DYNAMODB_JSON" "FULL_EXPORT" "uuid0")
      ddbOk s3Ok "eu" "su").get ⟨2, by decide⟩ =
      (run_trace (create "bkt" "pre" "us-east-1" "acct" "t-arn" "DYNAMODB_JSON" "FULL_EXPORT" "uuid0")
        ddbOk s3Ok "eu" "su").get ⟨2, by decide⟩ ∧
    response ((run_trace (create "bkt" "pre" "us-east-1" "acct" "t-arn" "DYNAMODB_JSON" "FULL_EXPORT" "uuid0")
      ddbOk s3Ok "eu" "su").get ⟨2, by decide⟩) =
      response ((run_trace (create "bkt" "pre" "us-east-1" "acct" "t-arn" "DYNAMODB_JSON" "FULL_EXPORT" "uuid0")
        ddbOk s3Ok "eu" "su").get ⟨2, by decide⟩) :=
  (c7_status_monotonic "bkt" "pre" "us-east-1" "acct" "t-arn" "DYNAMODB_JSON"
    "FULL_EXPORT" "uuid0" "eu" "su" ddbOk s3Ok).2.2.2
    ⟨2, by decide⟩ ⟨2, by decide⟩ (by decide) (by decide)

theorem c8_partial_progress_counters_witness :
    (run (create "bkt" "pre" "us-east-1" "acct" "t-arn" "DYNAMODB_JSON" "FULL_EXPORT" "uuid0")
      ddbBad s3Ok "eu" "su").1.status = "FAILED" ∧
    (run (create "bkt" "pre" "us-east-1" "acct" "t-arn" "DYNAMODB_JSON" "FULL_EXPORT" "uuid0")
      ddbBad s3Ok "eu" "su").1.item_count = 0 ∧
    (run (create "bkt" "pre" "us-east-1" "acct" "t-arn" "DYNAMODB_JSON" "FULL_EXPORT" "uuid0")
      ddbBad s3Ok "eu" "su").1.processed_bytes = (["serialA"].map String.length).sum :=
  (c8_partial_progress_counters "bkt" "pre" "us-east-1" "acct" "t-arn" "DYNAMODB_JSON"
    "FULL_EXPORT" "uuid0" "eu" "su" "tbl" "boom" ddbBad s3Ok tableBad
    [itemA] [itemB] itemBad ["serialA"] ["serialA"]).2.2.2.1
    rfl rfl (by decide) rfl rfl rfl rfl rfl

theorem c9_error_count_decides_final_status_witness :
    (run jobErr3 ddbOk s3Ok "eu" "su").1.status = "FAILED" ∧
    (run jobErr3 ddbOk s3Ok "eu" "su").2.objects.length = s3Ok.objects.length + 1 :=
  have h := c9_error_count_decides_final_status jobErr3 ddbOk s3Ok "eu" "su" "tbl"
    tableOk ["serialA", "serialB22"] rfl rfl (by decide) rfl rfl rfl rfl
  ⟨h.2.2 (by decide), h.1⟩

theorem c10_nonzero_error_count_failure_without_code_witness :
    (run jobErr3 ddbOk s3Ok "eu" "su").1.status = "FAILED" ∧
    (response (run jobErr3 ddbOk s3Ok "eu" "su").1).FailureCode = none ∧
    (response (run jobErr3 ddbOk s3Ok "eu" "su").1).FailureMessage = none :=
  have h := c10_nonzero_error_count_failure_without_code jobErr3 ddbOk s3Ok "eu" "su" "tbl"
    tableOk ["serialA", "serialB22"] rfl rfl (by decide) rfl rfl rfl rfl rfl rfl (by decide)
  ⟨h.1, h.2.2.2.2.1, h.2.2.2.2.2.1⟩

end TableExport

end Moto
